import Mathlib

/-!
Verification development for the testivid-backend video-composition pipeline
(`src/routes/testimonial.js` and the public merge route in `routes/publicApi.js`).

The JavaScript route handlers are shallowly embedded as pure Lean functions:
strings are `String`/`List Char`, the per-run local file system is a list of
abstract transient files, the database rows touched by the handlers are small
records, and every external effect (storage download, ffmpeg subprocess,
storage upload, database update) is represented by a boolean oracle in the
run environment, so that each control-flow branch of the handler is mirrored
exactly.
-/

namespace Testivid

/-! ## Sanitizer (`sanitizeDrawText`, routes/testimonial.js lines 410-422)

The JS function applies seven global single-character `String.replace` calls
in sequence.  A global replace of one character by a string is, char-wise,
a `List.bind`. -/

/-- One global `text.replace(/c/g, r)` step on the character sequence. -/
def replaceAll (c : Char) (r : List Char) (l : List Char) : List Char :=
  l.flatMap (fun x => if x = c then r else [x])

/-- `sanitizeDrawText` from routes/testimonial.js: remove backslashes, replace
single/double quotes with Unicode right quotation marks, colons with " -",
semicolons with " ", and square brackets with parentheses, in that order. -/
def sanitizeDrawText (text : List Char) : List Char :=
  replaceAll '\x5d' ['\x29']
    (replaceAll '\x5b' ['\x28']
      (replaceAll '\x3b' ['\x20']
        (replaceAll '\x3a' ['\x20', '\x2d']
          (replaceAll '\x22' ['”']
            (replaceAll '\x27' ['’']
              (replaceAll '\x5c' [] text))))))

/-- String-level wrapper of the char-wise sanitizer. -/
def sanitizeDrawTextS (s : String) : String :=
  String.mk (sanitizeDrawText s.data)

theorem mem_replaceAll {c a : Char} {r l : List Char}
    (h : c ∈ replaceAll a r l) : c ∈ r ∨ (c ∈ l ∧ c ≠ a) := by
  simp only [replaceAll, List.mem_flatMap] at h
  obtain ⟨x, hx, hc⟩ := h
  by_cases hxa : x = a
  · subst hxa
    rw [if_pos rfl] at hc
    exact Or.inl hc
  · rw [if_neg hxa] at hc
    simp only [List.mem_singleton] at hc
    subst hc
    exact Or.inr ⟨hx, hxa⟩

theorem replaceAll_of_not_mem {a : Char} {r l : List Char}
    (h : a ∉ l) : replaceAll a r l = l := by
  induction l with
  | nil => rfl
  | cons x xs ih =>
    simp only [List.mem_cons, not_or] at h
    have hxa : x ≠ a := fun hx => h.1 hx.symm
    have hstep : replaceAll a r (x :: xs) =
        (if x = a then r else [x]) ++ replaceAll a r xs := rfl
    rw [hstep, if_neg hxa, ih h.2]
    rfl

theorem sanitize_no_backslash (l : List Char) : '\x5c' ∉ sanitizeDrawText l := by
  intro h
  unfold sanitizeDrawText at h
  rcases mem_replaceAll h with h | ⟨h, _⟩
  · exact absurd h (by decide)
  rcases mem_replaceAll h with h | ⟨h, _⟩
  · exact absurd h (by decide)
  rcases mem_replaceAll h with h | ⟨h, _⟩
  · exact absurd h (by decide)
  rcases mem_replaceAll h with h | ⟨h, _⟩
  · exact absurd h (by decide)
  rcases mem_replaceAll h with h | ⟨h, _⟩
  · exact absurd h (by decide)
  rcases mem_replaceAll h with h | ⟨h, _⟩
  · exact absurd h (by decide)
  rcases mem_replaceAll h with h | ⟨_, hne⟩
  · exact absurd h (by decide)
  · exact hne rfl

theorem sanitize_no_squote (l : List Char) : '\x27' ∉ sanitizeDrawText l := by
  intro h
  unfold sanitizeDrawText at h
  rcases mem_replaceAll h with h | ⟨h, _⟩
  · exact absurd h (by decide)
  rcases mem_replaceAll h with h | ⟨h, _⟩
  · exact absurd h (by decide)
  rcases mem_replaceAll h with h | ⟨h, _⟩
  · exact absurd h (by decide)
  rcases mem_replaceAll h with h | ⟨h, _⟩
  · exact absurd h (by decide)
  rcases mem_replaceAll h with h | ⟨h, _⟩
  · exact absurd h (by decide)
  rcases mem_replaceAll h with h | ⟨_, hne⟩
  · exact absurd h (by decide)
  · exact hne rfl

theorem sanitize_no_dquote (l : List Char) : '\x22' ∉ sanitizeDrawText l := by
  intro h
  unfold sanitizeDrawText at h
  rcases mem_replaceAll h with h | ⟨h, _⟩
  · exact absurd h (by decide)
  rcases mem_replaceAll h with h | ⟨h, _⟩
  · exact absurd h (by decide)
  rcases mem_replaceAll h with h | ⟨h, _⟩
  · exact absurd h (by decide)
  rcases mem_replaceAll h with h | ⟨h, _⟩
  · exact absurd h (by decide)
  rcases mem_replaceAll h with h | ⟨_, hne⟩
  · exact absurd h (by decide)
  · exact hne rfl

theorem sanitize_no_colon (l : List Char) : '\x3a' ∉ sanitizeDrawText l := by
  intro h
  unfold sanitizeDrawText at h
  rcases mem_replaceAll h with h | ⟨h, _⟩
  · exact absurd h (by decide)
  rcases mem_replaceAll h with h | ⟨h, _⟩
  · exact absurd h (by decide)
  rcases mem_replaceAll h with h | ⟨h, _⟩
  · exact absurd h (by decide)
  rcases mem_replaceAll h with h | ⟨_, hne⟩
  · exact absurd h (by decide)
  · exact hne rfl

theorem sanitize_no_semicolon (l : List Char) : '\x3b' ∉ sanitizeDrawText l := by
  intro h
  unfold sanitizeDrawText at h
  rcases mem_replaceAll h with h | ⟨h, _⟩
  · exact absurd h (by decide)
  rcases mem_replaceAll h with h | ⟨h, _⟩
  · exact absurd h (by decide)
  rcases mem_replaceAll h with h | ⟨_, hne⟩
  · exact absurd h (by decide)
  · exact hne rfl

theorem sanitize_no_lbracket (l : List Char) : '\x5b' ∉ sanitizeDrawText l := by
  intro h
  unfold sanitizeDrawText at h
  rcases mem_replaceAll h with h | ⟨h, _⟩
  · exact absurd h (by decide)
  rcases mem_replaceAll h with h | ⟨_, hne⟩
  · exact absurd h (by decide)
  · exact hne rfl

theorem sanitize_no_rbracket (l : List Char) : '\x5d' ∉ sanitizeDrawText l := by
  intro h
  unfold sanitizeDrawText at h
  rcases mem_replaceAll h with h | ⟨_, hne⟩
  · exact absurd h (by decide)
  · exact hne rfl

/-- **C4.** Every character of `sanitizeDrawText`'s output differs from each of
the seven neutralized characters: single quote, double quote, colon, semicolon,
opening bracket, closing bracket, backslash. -/
theorem sanitizeDrawText_output_safe (l : List Char) (c : Char)
    (hc : c ∈ sanitizeDrawText l) :
    c ≠ '\x27' ∧ c ≠ '\x22' ∧ c ≠ '\x3a' ∧ c ≠ '\x3b' ∧
    c ≠ '\x5b' ∧ c ≠ '\x5d' ∧ c ≠ '\x5c' := by
  refine ⟨?_, ?_, ?_, ?_, ?_, ?_, ?_⟩ <;> intro heq <;> subst heq
  · exact sanitize_no_squote l hc
  · exact sanitize_no_dquote l hc
  · exact sanitize_no_colon l hc
  · exact sanitize_no_semicolon l hc
  · exact sanitize_no_lbracket l hc
  · exact sanitize_no_rbracket l hc
  · exact sanitize_no_backslash l hc

/-- Witness for C4: the character `a` survives sanitization of `"a:b"` and is
none of the neutralized characters. -/
theorem sanitizeDrawText_output_safe_witness :
    'a' ≠ '\x27' ∧ 'a' ≠ '\x22' ∧ 'a' ≠ '\x3a' ∧ 'a' ≠ '\x3b' ∧
    'a' ≠ '\x5b' ∧ 'a' ≠ '\x5d' ∧ 'a' ≠ '\x5c' :=
  sanitizeDrawText_output_safe ['a', '\x3a', 'b'] 'a' (by decide)

/-- **C5.** `sanitizeDrawText` is idempotent (totality is definitional: it is a
total Lean function on all character sequences). -/
theorem sanitizeDrawText_idempotent (l : List Char) :
    sanitizeDrawText (sanitizeDrawText l) = sanitizeDrawText l := by
  show replaceAll '\x5d' ['\x29']
      (replaceAll '\x5b' ['\x28']
        (replaceAll '\x3b' ['\x20']
          (replaceAll '\x3a' ['\x20', '\x2d']
            (replaceAll '\x22' ['”']
              (replaceAll '\x27' ['’']
                (replaceAll '\x5c' [] (sanitizeDrawText l))))))) = sanitizeDrawText l
  rw [replaceAll_of_not_mem (sanitize_no_backslash l),
      replaceAll_of_not_mem (sanitize_no_squote l),
      replaceAll_of_not_mem (sanitize_no_dquote l),
      replaceAll_of_not_mem (sanitize_no_colon l),
      replaceAll_of_not_mem (sanitize_no_semicolon l),
      replaceAll_of_not_mem (sanitize_no_lbracket l),
      replaceAll_of_not_mem (sanitize_no_rbracket l)]

/-! ## Data model of the merge pipeline (`router.post('/:id/merge')`,
routes/testimonial.js lines 424-601)

Each fetched `testimonial_responses` row carries the fields selected at lines
444-447 plus, as ground truth from the schema, the owning question's
`order_position` (the authoritative ordering key, which the merge query does
not fetch or sort by). -/

/-- A row of the `testimonial_responses` join fetched at lines 444-447. -/
structure ResponseRow where
  id : Nat
  video_url : Option String
  question_id : Nat
  question_text : String
  order_position : Nat
deriving DecidableEq, Repr

/-- JS truthiness of the nullable `video_url` column (line 462:
`if (!response.video_url) continue`). -/
def truthy : Option String → Bool
  | none => false
  | some s => !(s == "")

/-- Abstract transient local files created by a merge run: the downloaded raw
clip and converted clip of a response (by response id), the intro card, a
question title card (by question id), the concat manifest, and the merged
output. -/
inductive TFile where
  | raw : Nat → TFile
  | clip : Nat → TFile
  | intro : TFile
  | card : Nat → TFile
  | concatList : TFile
  | merged : TFile
deriving DecidableEq, Repr

/-- Run environment: the fetched rows plus one boolean oracle per external
effect (storage download success per response, ffmpeg conversion success per
response, intro/title-card/concat ffmpeg success, storage upload success and
database-update success). -/
structure Env where
  tid : Nat
  now : Nat
  responses : List ResponseRow
  fetchOk : Nat → Bool
  convertOk : Nat → Bool
  introOk : Bool
  cardOk : Nat → Bool
  concatOk : Bool
  uploadOk : Bool
  updateOk : Bool

/-- Result of the per-response download-and-convert loop (lines 460-494). -/
structure Phase1 where
  downloadedVideos : List ResponseRow
  created : List TFile
  remaining : List TFile
deriving DecidableEq, Repr

/-- One iteration of the loop at lines 461-494: skip rows without a truthy
`video_url`; a failed download skips the row; a successful download writes the
raw file; a successful conversion writes the clip and unlinks the raw file,
while a failed conversion is caught (line 491) leaving the raw file behind. -/
def processOne (env : Env) (r : ResponseRow) : Phase1 :=
  if truthy r.video_url = false then ⟨[], [], []⟩
  else if env.fetchOk r.id = false then ⟨[], [], []⟩
  else if env.convertOk r.id then
    ⟨[r], [TFile.raw r.id, TFile.clip r.id], [TFile.clip r.id]⟩
  else ⟨[], [TFile.raw r.id], [TFile.raw r.id]⟩

/-- The whole loop at lines 460-494, accumulating `downloadedVideos`, all
files ever created, and files still on disk afterwards. -/
def downloadLoop (env : Env) : List ResponseRow → Phase1
  | [] => ⟨[], [], []⟩
  | r :: rest =>
    let p := processOne env r
    let q := downloadLoop env rest
    ⟨p.downloadedVideos ++ q.downloadedVideos, p.created ++ q.created,
      p.remaining ++ q.remaining⟩

/-- The title-card loop at lines 526-546: for each downloaded video create its
title card (an ffmpeg failure throws to the outer catch, with the cards made
so far left on disk) and push card then clip onto the segment list. -/
def cardLoop (env : Env) : List ResponseRow → Except (List TFile) (List TFile)
  | [] => Except.ok []
  | v :: rest =>
    if env.cardOk v.question_id then
      match cardLoop env rest with
      | Except.ok segs =>
          Except.ok (TFile.card v.question_id :: TFile.clip v.id :: segs)
      | Except.error made => Except.error (TFile.card v.question_id :: made)
    else Except.error []

/-- HTTP outcome of the merge handler: `ok url videosIncluded` for the 200
response of line 595, `err status` for the 400/500 error responses. -/
inductive MergeOutcome where
  | ok : String → Nat → MergeOutcome
  | err : Nat → MergeOutcome
deriving DecidableEq, Repr

/-- The persisted `testimonial` row fields the merge handler can touch
(line 583 updates `video_url` and `updated_at` only). -/
structure TestimonialRecord where
  video_url : Option String
  status : String
  updated_at : Nat
deriving DecidableEq, Repr

/-- Full observable result of one merge run: HTTP outcome, the concat manifest
written at line 551 (empty if the run failed before writing it), local files
remaining at the end, all local files created during the run, storage keys
uploaded, and the final database record. -/
structure RunResult where
  outcome : MergeOutcome
  manifest : List TFile
  files : List TFile
  created : List TFile
  uploadedKeys : List String
  record : TestimonialRecord
deriving DecidableEq, Repr

def mergedFileName (env : Env) : String :=
  "testimonial_" ++ toString env.tid ++ "_" ++ toString env.now ++ ".mp4"

/-- Modelled from the spec: the object-storage collaborator's
`publicUrl(key)` (external to this repository). -/
def publicUrlOf (key : String) : String :=
  "https://storage.example/storage/v1/object/public/videos/" ++ key

def mergedVideoUrl (env : Env) : String :=
  publicUrlOf ("merged_testimonials/" ++ mergedFileName env)

/-- Is a file a question title card (its path contains the `question_`
prefix used by the cleanup filter of line 591)? -/
def isCard : TFile → Bool
  | TFile.card _ => true
  | _ => false

/-- The cleanup loop of lines 591-593: unlink every listed file that exists. -/
def removeFiles (cleanup : List TFile) (l : List TFile) : List TFile :=
  l.filter (fun f => decide (¬ f ∈ cleanup))

/-- Upload, record update and cleanup (lines 561-595).  On upload error the
handler returns 500 at once — no record update and no cleanup.  On success it
uploads the merged file, updates the record (an update error is only logged,
line 587), removes intro, concat list, merged file, the `question_` segments
and the converted clips, and answers 200 with the public URL. -/
def stageUpload (env : Env) (rec0 : TestimonialRecord) (p : Phase1)
    (segsTail : List TFile) : RunResult :=
  if env.uploadOk = false then
    ⟨MergeOutcome.err 500, TFile.intro :: segsTail,
      p.remaining ++ [TFile.intro] ++ segsTail.filter isCard ++
        [TFile.concatList, TFile.merged],
      p.created ++ [TFile.intro] ++ segsTail.filter isCard ++
        [TFile.concatList, TFile.merged],
      [], rec0⟩
  else
    ⟨MergeOutcome.ok (mergedVideoUrl env) p.downloadedVideos.length,
      TFile.intro :: segsTail,
      removeFiles
        ([TFile.intro, TFile.concatList, TFile.merged] ++
          (TFile.intro :: segsTail).filter isCard ++
          p.downloadedVideos.map (fun v => TFile.clip v.id))
        (p.remaining ++ [TFile.intro] ++ segsTail.filter isCard ++
          [TFile.concatList, TFile.merged]),
      p.created ++ [TFile.intro] ++ segsTail.filter isCard ++
        [TFile.concatList, TFile.merged],
      ["merged_testimonials/" ++ mergedFileName env],
      if env.updateOk then
        ⟨some (mergedVideoUrl env), rec0.status, env.now⟩
      else rec0⟩

/-- Concat-manifest write and ffmpeg concatenation (lines 549-557): the concat
list file is written first; a concat failure throws to the outer catch with
all files still on disk. -/
def stageConcat (env : Env) (rec0 : TestimonialRecord) (p : Phase1)
    (segsTail : List TFile) : RunResult :=
  if env.concatOk = false then
    ⟨MergeOutcome.err 500, TFile.intro :: segsTail,
      p.remaining ++ [TFile.intro] ++ segsTail.filter isCard ++
        [TFile.concatList],
      p.created ++ [TFile.intro] ++ segsTail.filter isCard ++
        [TFile.concatList],
      [], rec0⟩
  else stageUpload env rec0 p segsTail

/-- Title-card generation (lines 523-546): a card failure throws to the outer
catch (500) with the intro and the cards made so far left on disk. -/
def stageCards (env : Env) (rec0 : TestimonialRecord) (p : Phase1) : RunResult :=
  match cardLoop env p.downloadedVideos with
  | Except.error made =>
      ⟨MergeOutcome.err 500, [], p.remaining ++ [TFile.intro] ++ made,
        p.created ++ [TFile.intro] ++ made, [], rec0⟩
  | Except.ok segsTail => stageConcat env rec0 p segsTail

/-- The merge handler from line 454 on: 400 if no responses; the download
loop; 400 if nothing could be downloaded (line 496); intro-card creation
(lines 503-520, failure throws to the outer catch); then cards, concat,
upload, record update and cleanup. -/
def mergeRun (env : Env) (rec0 : TestimonialRecord) : RunResult :=
  if env.responses.isEmpty then
    ⟨MergeOutcome.err 400, [], [], [], [], rec0⟩
  else if (downloadLoop env env.responses).downloadedVideos.isEmpty then
    ⟨MergeOutcome.err 400, [], (downloadLoop env env.responses).remaining,
      (downloadLoop env env.responses).created, [], rec0⟩
  else if env.introOk = false then
    ⟨MergeOutcome.err 500, [], (downloadLoop env env.responses).remaining,
      (downloadLoop env env.responses).created, [], rec0⟩
  else stageCards env rec0 (downloadLoop env env.responses)

/-! ### Characterization lemmas for the two loops -/

theorem downloadLoop_cons (env : Env) (r : ResponseRow) (rest : List ResponseRow) :
    downloadLoop env (r :: rest) =
      ⟨(processOne env r).downloadedVideos ++ (downloadLoop env rest).downloadedVideos,
        (processOne env r).created ++ (downloadLoop env rest).created,
        (processOne env r).remaining ++ (downloadLoop env rest).remaining⟩ := rfl

theorem downloadLoop_videos (env : Env) (rs : List ResponseRow) :
    (downloadLoop env rs).downloadedVideos =
      rs.filter (fun r => truthy r.video_url && env.fetchOk r.id && env.convertOk r.id) := by
  induction rs with
  | nil => rfl
  | cons r rest ih =>
    rw [downloadLoop_cons]
    cases h1 : truthy r.video_url <;> cases h2 : env.fetchOk r.id <;>
      cases h3 : env.convertOk r.id <;>
      simp [processOne, h1, h2, h3, List.filter_cons, ih]

theorem downloadLoop_remaining (env : Env) (rs : List ResponseRow) :
    (downloadLoop env rs).remaining =
      rs.flatMap (fun r =>
        if truthy r.video_url && env.fetchOk r.id then
          (if env.convertOk r.id then [TFile.clip r.id] else [TFile.raw r.id])
        else []) := by
  induction rs with
  | nil => rfl
  | cons r rest ih =>
    rw [downloadLoop_cons]
    cases h1 : truthy r.video_url <;> cases h2 : env.fetchOk r.id <;>
      cases h3 : env.convertOk r.id <;>
      simp [processOne, h1, h2, h3, List.flatMap_cons, ih]

theorem downloadLoop_created (env : Env) (rs : List ResponseRow) :
    (downloadLoop env rs).created =
      rs.flatMap (fun r =>
        if truthy r.video_url && env.fetchOk r.id then
          (if env.convertOk r.id then [TFile.raw r.id, TFile.clip r.id]
           else [TFile.raw r.id])
        else []) := by
  induction rs with
  | nil => rfl
  | cons r rest ih =>
    rw [downloadLoop_cons]
    cases h1 : truthy r.video_url <;> cases h2 : env.fetchOk r.id <;>
      cases h3 : env.convertOk r.id <;>
      simp [processOne, h1, h2, h3, List.flatMap_cons, ih]

theorem downloadLoop_all_ok (env : Env) (rs : List ResponseRow)
    (h : ∀ r ∈ rs, truthy r.video_url = true ∧ env.fetchOk r.id = true ∧
      env.convertOk r.id = true) :
    downloadLoop env rs =
      ⟨rs, rs.flatMap (fun r => [TFile.raw r.id, TFile.clip r.id]),
        rs.map (fun r => TFile.clip r.id)⟩ := by
  induction rs with
  | nil => rfl
  | cons r rest ih =>
    obtain ⟨h1, h2, h3⟩ := h r (List.mem_cons_self r rest)
    have hrest := ih (fun x hx => h x (List.mem_cons_of_mem r hx))
    rw [downloadLoop_cons, hrest]
    simp [processOne, h1, h2, h3]

theorem cardLoop_all_ok (env : Env) (vs : List ResponseRow)
    (h : ∀ v ∈ vs, env.cardOk v.question_id = true) :
    cardLoop env vs =
      Except.ok (vs.flatMap (fun v => [TFile.card v.question_id, TFile.clip v.id])) := by
  induction vs with
  | nil => rfl
  | cons v rest ih =>
    have h1 := h v (List.mem_cons_self v rest)
    have hrest := ih (fun x hx => h x (List.mem_cons_of_mem v hx))
    simp [cardLoop, h1, hrest]

theorem cardLoop_fails (env : Env) (vs : List ResponseRow)
    (h : ∃ v ∈ vs, env.cardOk v.question_id = false) :
    ∃ made, cardLoop env vs = Except.error made := by
  induction vs with
  | nil => simp at h
  | cons v rest ih =>
    cases h1 : env.cardOk v.question_id
    · exact ⟨[], by simp [cardLoop, h1]⟩
    · have hrest : ∃ x ∈ rest, env.cardOk x.question_id = false := by
        obtain ⟨x, hx, hfx⟩ := h
        rcases List.mem_cons.mp hx with rfl | hx'
        · rw [h1] at hfx; cases hfx
        · exact ⟨x, hx', hfx⟩
      obtain ⟨made, hm⟩ := ih hrest
      exact ⟨TFile.card v.question_id :: made, by simp [cardLoop, h1, hm]⟩

theorem flatMap_pairs_length (vs : List ResponseRow) :
    (vs.flatMap (fun v => [TFile.card v.question_id, TFile.clip v.id])).length =
      2 * vs.length := by
  induction vs with
  | nil => rfl
  | cons v rest ih =>
    simp only [List.flatMap_cons, List.length_append, List.length_cons, ih,
      List.length_nil, List.length_singleton]
    ring

theorem length_filter_add_not (p : ResponseRow → Bool) (rs : List ResponseRow) :
    (rs.filter p).length + (rs.filter (fun r => !(p r))).length = rs.length := by
  induction rs with
  | nil => rfl
  | cons r rest ih =>
    cases h : p r <;> simp [List.filter_cons, h, ← ih] <;> omega

theorem intro_not_in_downloadLoop_created (env : Env) (rs : List ResponseRow) :
    TFile.intro ∉ (downloadLoop env rs).created := by
  rw [downloadLoop_created]
  intro h
  rw [List.mem_flatMap] at h
  obtain ⟨r, _, hr⟩ := h
  split at hr
  · split at hr <;> simp at hr
  · simp at hr

/-! ### Branch lemmas for `mergeRun` -/

theorem isEmpty_false_of_ne {α : Type} {l : List α} (h : l ≠ []) :
    l.isEmpty = false := by
  cases l with
  | nil => exact absurd rfl h
  | cons a as => rfl

theorem isEmpty_true_of_eq {α : Type} {l : List α} (h : l = []) :
    l.isEmpty = true := by
  subst h
  rfl

theorem mergeRun_reaches_upload (env : Env) (rec0 : TestimonialRecord)
    (hne : (downloadLoop env env.responses).downloadedVideos ≠ [])
    (hintro : env.introOk = true)
    (hcards : ∀ v ∈ (downloadLoop env env.responses).downloadedVideos,
      env.cardOk v.question_id = true)
    (hconcat : env.concatOk = true) :
    mergeRun env rec0 = stageUpload env rec0 (downloadLoop env env.responses)
      ((downloadLoop env env.responses).downloadedVideos.flatMap
        (fun v => [TFile.card v.question_id, TFile.clip v.id])) := by
  have hres : env.responses.isEmpty = false := by
    apply isEmpty_false_of_ne
    intro h
    apply hne
    rw [h]
    rfl
  have hv : (downloadLoop env env.responses).downloadedVideos.isEmpty = false :=
    isEmpty_false_of_ne hne
  unfold mergeRun
  rw [hres, hv, hintro]
  simp only [Bool.false_eq_true, if_false, Bool.true_eq_false]
  unfold stageCards
  rw [cardLoop_all_ok env _ hcards]
  unfold stageConcat
  rw [hconcat]
  simp only [Bool.true_eq_false, if_false]

theorem mergeRun_reaches_concat (env : Env) (rec0 : TestimonialRecord)
    (hne : (downloadLoop env env.responses).downloadedVideos ≠ [])
    (hintro : env.introOk = true)
    (hcards : ∀ v ∈ (downloadLoop env env.responses).downloadedVideos,
      env.cardOk v.question_id = true) :
    mergeRun env rec0 = stageConcat env rec0 (downloadLoop env env.responses)
      ((downloadLoop env env.responses).downloadedVideos.flatMap
        (fun v => [TFile.card v.question_id, TFile.clip v.id])) := by
  have hres : env.responses.isEmpty = false := by
    apply isEmpty_false_of_ne
    intro h
    apply hne
    rw [h]
    rfl
  have hv : (downloadLoop env env.responses).downloadedVideos.isEmpty = false :=
    isEmpty_false_of_ne hne
  unfold mergeRun
  rw [hres, hv, hintro]
  simp only [Bool.false_eq_true, if_false, Bool.true_eq_false]
  unfold stageCards
  rw [cardLoop_all_ok env _ hcards]

theorem stageConcat_manifest (env : Env) (rec0 : TestimonialRecord)
    (p : Phase1) (segsTail : List TFile) :
    (stageConcat env rec0 p segsTail).manifest = TFile.intro :: segsTail := by
  unfold stageConcat stageUpload
  cases hc : env.concatOk <;> cases hu : env.uploadOk <;> simp [hc, hu]

theorem removeFiles_eq_nil {cleanup l : List TFile}
    (h : ∀ x ∈ l, x ∈ cleanup) : removeFiles cleanup l = [] := by
  unfold removeFiles
  rw [List.filter_eq_nil_iff]
  intro a ha
  simp [h a ha]

theorem filter_isCard_pairs (vs : List ResponseRow) :
    (vs.flatMap (fun v => [TFile.card v.question_id, TFile.clip v.id])).filter
        isCard =
      vs.map (fun v => TFile.card v.question_id) := by
  induction vs with
  | nil => rfl
  | cons v rest ih =>
    simp [List.flatMap_cons, List.filter_append, List.filter_cons, isCard, ih]

theorem mergeRun_card_failure (env : Env) (rec0 : TestimonialRecord)
    (hne : (downloadLoop env env.responses).downloadedVideos ≠ [])
    (hintro : env.introOk = true)
    (hfail : ∃ v ∈ (downloadLoop env env.responses).downloadedVideos,
      env.cardOk v.question_id = false) :
    ∃ made, mergeRun env rec0 =
      ⟨MergeOutcome.err 500, [],
        (downloadLoop env env.responses).remaining ++ [TFile.intro] ++ made,
        (downloadLoop env env.responses).created ++ [TFile.intro] ++ made,
        [], rec0⟩ := by
  have hres : env.responses.isEmpty = false := by
    apply isEmpty_false_of_ne
    intro h
    apply hne
    rw [h]
    rfl
  have hv : (downloadLoop env env.responses).downloadedVideos.isEmpty = false :=
    isEmpty_false_of_ne hne
  obtain ⟨made, hm⟩ := cardLoop_fails env _ hfail
  refine ⟨made, ?_⟩
  unfold mergeRun
  rw [hres, hv, hintro]
  simp only [Bool.false_eq_true, if_false, Bool.true_eq_false]
  unfold stageCards
  rw [hm]

theorem mergeRun_no_videos (env : Env) (rec0 : TestimonialRecord)
    (hres : env.responses ≠ [])
    (hv : (downloadLoop env env.responses).downloadedVideos = []) :
    mergeRun env rec0 =
      ⟨MergeOutcome.err 400, [], (downloadLoop env env.responses).remaining,
        (downloadLoop env env.responses).created, [], rec0⟩ := by
  have hres' : env.responses.isEmpty = false := isEmpty_false_of_ne hres
  have hv' : (downloadLoop env env.responses).downloadedVideos.isEmpty = true :=
    isEmpty_true_of_eq hv
  unfold mergeRun
  rw [hres', hv']
  simp only [Bool.false_eq_true, if_false, if_true]

/-! ## The single-response handler (`router.post('/response/:id/generate-intro')`,
routes/testimonial.js lines 604-806) -/

inductive IntroOutcome where
  | ok : String → IntroOutcome
  | err : Nat → IntroOutcome
deriving DecidableEq, Repr

/-- The persisted `testimonial_responses` row fields the generate-intro
handler can touch (lines 764-771). -/
structure ResponseRecord where
  intro_video_url : Option String
  intro_generated : Bool
  updated_at : Nat
deriving DecidableEq, Repr

/-- Environment of one generate-intro run: the response's data plus one
boolean oracle per external effect. -/
structure IntroEnv where
  rid : Nat
  now : Nat
  video_url : Option String
  question_text : Option String
  fetchOk : Bool
  convertOk : Bool
  cardOk : Bool
  concatOk : Bool
  uploadOk : Bool
  updateOk : Bool

structure IntroRunResult where
  outcome : IntroOutcome
  record : ResponseRecord
deriving DecidableEq, Repr

def introFileName (env : IntroEnv) : String :=
  "response_with_intro_" ++ toString env.rid ++ "_" ++ toString env.now ++ ".mp4"

/-- The generate-intro handler from line 645 on: 400 without a truthy
`video_url` or question text; 500 on download, conversion, title-card or
concatenation failure (all caught at line 794); 500 on upload error
(line 748); on success the response row update may fail, which is only
logged (line 773, "Continue anyway"), and the handler answers 200 with the
public URL either way. -/
def generateIntroRun (env : IntroEnv) (rec0 : ResponseRecord) : IntroRunResult :=
  if truthy env.video_url = false then ⟨IntroOutcome.err 400, rec0⟩
  else if truthy env.question_text = false then ⟨IntroOutcome.err 400, rec0⟩
  else if env.fetchOk = false then ⟨IntroOutcome.err 500, rec0⟩
  else if env.convertOk = false then ⟨IntroOutcome.err 500, rec0⟩
  else if env.cardOk = false then ⟨IntroOutcome.err 500, rec0⟩
  else if env.concatOk = false then ⟨IntroOutcome.err 500, rec0⟩
  else if env.uploadOk = false then ⟨IntroOutcome.err 500, rec0⟩
  else
    ⟨IntroOutcome.ok (publicUrlOf ("responses_with_intro/" ++ introFileName env)),
      if env.updateOk then
        ⟨some (publicUrlOf ("responses_with_intro/" ++ introFileName env)),
          true, env.now⟩
      else rec0⟩

/-! ## Drawtext interpolation sites

Each definition embeds the exact expression the handler interpolates into the
`drawtext=text=...` field of an ffmpeg command. -/

/-- routes/testimonial.js line 504: `sanitizeDrawText(testimonial.customer_name || '')`,
interpolated into the intro command at line 512. -/
def mergeIntroNameArg (customer_name : String) : String :=
  sanitizeDrawTextS customer_name

/-- routes/testimonial.js line 505: `sanitizeDrawText(testimonial.customer_position || '')`,
interpolated into the intro command at line 513. -/
def mergeIntroPositionArg (customer_position : String) : String :=
  sanitizeDrawTextS customer_position

/-- routes/testimonial.js line 528: `sanitizeDrawText(video.questionText)`,
interpolated into the title-card command at line 534. -/
def mergeTitleCardArg (question_text : String) : String :=
  sanitizeDrawTextS question_text

/-- routes/testimonial.js line 707: `sanitizeDrawText(questionText)`,
interpolated into the question-intro command at line 713. -/
def generateIntroTitleArg (question_text : String) : String :=
  sanitizeDrawTextS question_text

/-- routes/publicApi.js line 249: `const nameText = req.body.name;`,
interpolated into the intro command at line 255 with no sanitization. -/
def publicIntroNameArg (name : String) : String := name

/-- routes/publicApi.js line 250: `const titleText = req.body.title || '';`,
interpolated into the intro command at line 256 with no sanitization. -/
def publicIntroTitleArg (title : Option String) : String := title.getD ""

/-! ## The per-clip normalization commands (C9) -/

/-- Boolean prefix test on character lists. -/
def startsWith : List Char → List Char → Bool
  | [], _ => true
  | _ :: _, [] => false
  | p :: ps, c :: cs => p == c && startsWith ps cs

/-- Boolean substring test on character lists. -/
def containsSub (pat : List Char) : List Char → Bool
  | [] => pat.isEmpty
  | c :: rest => startsWith pat (c :: rest) || containsSub pat rest

/-- routes/testimonial.js line 481: the per-clip conversion command of the
authenticated merge handler (pinned codecs, aspect-ratio-preserving
scale + centred pad to 1280x720, no frame-rate flag). -/
def ffmpegCommandConvert (originalPath mp4Path : String) : String :=
  "ffmpeg -y -i \"" ++ originalPath ++
    "\" -c:v libx264 -preset ultrafast -c:a aac -b:a 128k -ac 2 -ar 44100 -vf \"scale=\x27if(gt(a,16/9),1280,-2)\x27:\x27if(gt(a,16/9),-2,720)\x27,pad=1280:720:(ow-iw)/2:(oh-ih)/2\" \"" ++
    mp4Path ++ "\""

/-- routes/publicApi.js line 238: the per-clip conversion command of the
public merge handler (pinned codecs, `fps=30`, but a direct
`scale=1280:720` with no padding). -/
def publicFfmpegCommandConvert (webmPath mp4Path : String) : String :=
  "ffmpeg -y -i \"" ++ webmPath ++
    "\" -fflags +genpts -reset_timestamps 1 -c:v libx264 -preset ultrafast -vf \"scale=1280:720,fps=30,setpts=PTS-STARTPTS\" -c:a aac -b:a 128k -ar 44100 -af \"asetpts=PTS-STARTPTS\" \"" ++
    mp4Path ++ "\""

/-- Stated from the spec's words ("frame rate fixed (30)"): the command pins
the output frame rate to 30, either by an `-r 30` output flag or by an
`fps=30` filter. -/
def pinsFrameRate30 (cmd : String) : Bool :=
  containsSub "-r 30".data cmd.data || containsSub "fps=30".data cmd.data

/-- Stated from the spec's words ("completion marker" / "the aggregate's
completion flag set"): the testimonial's status column marks completion. -/
def completionMarkerSet (rec : TestimonialRecord) : Bool :=
  rec.status == "completed"

/-! ## Concrete fixtures -/

/-- Fixture: the response whose question has the smaller ordering key. -/
def rowA : ResponseRow := ⟨1, some "u1", 10, "What problem did we solve", 1⟩

/-- Fixture: the response whose question has the larger ordering key. -/
def rowB : ResponseRow := ⟨2, some "u2", 20, "Would you recommend us", 2⟩

def recPending : TestimonialRecord := ⟨none, "pending", 0⟩

/-- All-success environment, responses fetched in ordering-key order. -/
def envAllOk : Env :=
  ⟨7, 99, [rowA, rowB], fun _ => true, fun _ => true, true, fun _ => true,
    true, true, true⟩

/-- All-success environment, responses fetched in the reverse of
ordering-key order. -/
def envSwapped : Env :=
  ⟨7, 99, [rowB, rowA], fun _ => true, fun _ => true, true, fun _ => true,
    true, true, true⟩

/-- Environment in which response 2 fails ffmpeg conversion and everything
else succeeds. -/
def envConvFail : Env :=
  ⟨7, 99, [rowA, rowB], fun _ => true, fun i => !(i == 2), true,
    fun _ => true, true, true, true⟩

/-- Environment in which every response fails its download. -/
def envAllFetchFail : Env :=
  ⟨7, 99, [rowA, rowB], fun _ => false, fun _ => true, true, fun _ => true,
    true, true, true⟩

/-- Environment in which the title card of question 20 fails. -/
def envCardFail : Env :=
  ⟨7, 99, [rowA, rowB], fun _ => true, fun _ => true, true,
    fun q => !(q == 20), true, true, true⟩

/-- Environment in which the storage upload of the merged file fails. -/
def envNoUpload : Env :=
  ⟨7, 99, [rowA, rowB], fun _ => true, fun _ => true, true, fun _ => true,
    true, false, true⟩

/-- Environment in which everything succeeds except the final database
write-back. -/
def envNoUpdate : Env :=
  ⟨7, 99, [rowA, rowB], fun _ => true, fun _ => true, true, fun _ => true,
    true, true, false⟩

def irecNone : ResponseRecord := ⟨none, false, 0⟩

/-- Generate-intro environment in which everything succeeds except the final
database write-back. -/
def ienvNoUpdate : IntroEnv :=
  ⟨5, 99, some "u5", some "Would you recommend us", true, true, true, true,
    true, false⟩

/-! ## Claim theorems -/

/-- **C1 (counterexample).** Both responses are fetchable and convertible and
their ordering keys are distinct (`rowA.order_position = 1 <
rowB.order_position = 2`), but when the unordered database query returns them
as [rowB, rowA] the manifest pairs follow that fetched order, not the
authoritative ordering-key order required by the claim. -/
theorem mergeRun_manifest_not_key_order :
    rowA.order_position < rowB.order_position
    ∧ (mergeRun envSwapped recPending).outcome =
        MergeOutcome.ok (mergedVideoUrl envSwapped) 2
    ∧ (mergeRun envSwapped recPending).manifest =
        [TFile.intro, TFile.card 20, TFile.clip 2, TFile.card 10, TFile.clip 1]
    ∧ (mergeRun envSwapped recPending).manifest ≠
        [TFile.intro, TFile.card 10, TFile.clip 1, TFile.card 20, TFile.clip 2] := by
  decide

/-- **C1 (amended).** For N fetchable and convertible responses the
concatenation manifest has exactly 1 + 2N entries in the order
[intro, title 1, clip 1, …, title N, clip N], where the pairs appear in the
order in which the responses were returned by the (unordered) database query,
not re-sorted by the question ordering key. -/
theorem mergeRun_manifest_fetch_order (env : Env) (rec0 : TestimonialRecord)
    (hne : env.responses ≠ [])
    (hall : ∀ r ∈ env.responses, truthy r.video_url = true ∧
      env.fetchOk r.id = true ∧ env.convertOk r.id = true)
    (hintro : env.introOk = true)
    (hcards : ∀ r ∈ env.responses, env.cardOk r.question_id = true) :
    (mergeRun env rec0).manifest =
      TFile.intro :: env.responses.flatMap
        (fun r => [TFile.card r.question_id, TFile.clip r.id])
    ∧ (mergeRun env rec0).manifest.length = 1 + 2 * env.responses.length := by
  have hdl := downloadLoop_all_ok env env.responses hall
  have hrw := mergeRun_reaches_concat env rec0
    (by rw [hdl]; exact hne) hintro (by rw [hdl]; exact hcards)
  rw [hrw, stageConcat_manifest, hdl]
  refine ⟨rfl, ?_⟩
  simp only [List.length_cons, flatMap_pairs_length]
  omega

/-- Witness for C1 (amended) at a two-response environment. -/
theorem mergeRun_manifest_fetch_order_witness :
    (mergeRun envAllOk recPending).manifest =
      TFile.intro :: envAllOk.responses.flatMap
        (fun r => [TFile.card r.question_id, TFile.clip r.id])
    ∧ (mergeRun envAllOk recPending).manifest.length =
        1 + 2 * envAllOk.responses.length :=
  mergeRun_manifest_fetch_order envAllOk recPending (by decide) (by decide)
    rfl (by decide)

/-- **C2.** With every response recorded (truthy clip reference) and the
card/concat/upload stages healthy: if the responses that fail download or
conversion leave at least one survivor, the run still answers 200 and the
manifest has exactly 1 + 2(N − k) entries (each failed response contributes
neither a title card nor a clip); if all N fail, the run answers 400,
uploads nothing, and never even creates the intro card. -/
theorem mergeRun_partial_failures (env : Env) (rec0 : TestimonialRecord)
    (htruthy : ∀ r ∈ env.responses, truthy r.video_url = true)
    (hintro : env.introOk = true)
    (hcards : ∀ r ∈ env.responses, env.cardOk r.question_id = true)
    (hconcat : env.concatOk = true)
    (hupload : env.uploadOk = true) :
    (env.responses.filter (fun r => env.fetchOk r.id && env.convertOk r.id) ≠ [] →
      (mergeRun env rec0).outcome = MergeOutcome.ok (mergedVideoUrl env)
        (env.responses.filter
          (fun r => env.fetchOk r.id && env.convertOk r.id)).length
      ∧ (mergeRun env rec0).manifest.length =
          1 + 2 * (env.responses.length -
            (env.responses.filter
              (fun r => !(env.fetchOk r.id && env.convertOk r.id))).length))
    ∧ (env.responses.filter (fun r => env.fetchOk r.id && env.convertOk r.id) = [] →
      env.responses ≠ [] →
      (mergeRun env rec0).outcome = MergeOutcome.err 400
      ∧ (mergeRun env rec0).uploadedKeys = []
      ∧ TFile.intro ∉ (mergeRun env rec0).created) := by
  have hfe : (downloadLoop env env.responses).downloadedVideos =
      env.responses.filter (fun r => env.fetchOk r.id && env.convertOk r.id) := by
    rw [downloadLoop_videos]
    apply List.filter_congr
    intro r hr
    rw [htruthy r hr]
    simp
  constructor
  · intro hne
    have hcards' : ∀ v ∈ (downloadLoop env env.responses).downloadedVideos,
        env.cardOk v.question_id = true := by
      intro v hv
      rw [hfe] at hv
      exact hcards v (List.mem_of_mem_filter hv)
    have hrw := mergeRun_reaches_upload env rec0 (by rw [hfe]; exact hne)
      hintro hcards' hconcat
    have hk : (env.responses.filter
        (fun r => env.fetchOk r.id && env.convertOk r.id)).length =
        env.responses.length - (env.responses.filter
          (fun r => !(env.fetchOk r.id && env.convertOk r.id))).length := by
      have hpart := length_filter_add_not
        (fun r => env.fetchOk r.id && env.convertOk r.id) env.responses
      omega
    rw [hrw]
    unfold stageUpload
    rw [hupload]
    simp only [Bool.true_eq_false, if_false]
    refine ⟨?_, ?_⟩
    · rw [hfe]
    · simp only [List.length_cons, flatMap_pairs_length, hfe, hk]
      omega
  · intro hempty hne
    rw [mergeRun_no_videos env rec0 hne (by rw [hfe]; exact hempty)]
    exact ⟨rfl, rfl, intro_not_in_downloadLoop_created env env.responses⟩

/-- Witness for C2 at an environment where response 2's conversion fails:
N = 2, k = 1, the run succeeds and the manifest has 3 entries. -/
theorem mergeRun_partial_failures_witness :
    (mergeRun envConvFail recPending).outcome =
      MergeOutcome.ok (mergedVideoUrl envConvFail)
        (envConvFail.responses.filter
          (fun r => envConvFail.fetchOk r.id && envConvFail.convertOk r.id)).length
    ∧ (mergeRun envConvFail recPending).manifest.length =
        1 + 2 * (envConvFail.responses.length -
          (envConvFail.responses.filter
            (fun r => !(envConvFail.fetchOk r.id && envConvFail.convertOk r.id))).length) :=
  (mergeRun_partial_failures envConvFail recPending (by decide) rfl
    (by decide) rfl rfl).1 (by decide)

/-- **C3 (counterexample).** The public merge handler interpolates the
respondent name into its intro drawtext argument verbatim: for the name
O'Brien the interpolated string contains a raw single quote, and therefore
is not the output of the sanitize function on any input. -/
theorem publicMerge_drawtext_unsanitized :
    '\x27' ∈ (publicIntroNameArg "O\x27Brien").data
    ∧ ¬ ∃ y : List Char, (publicIntroNameArg "O\x27Brien").data =
        sanitizeDrawText y := by
  constructor
  · decide
  · rintro ⟨y, hy⟩
    have h1 : '\x27' ∈ (publicIntroNameArg "O\x27Brien").data := by decide
    rw [hy] at h1
    exact sanitize_no_squote y h1

/-- **C3 (amended).** In the two authenticated composition handlers
(full merge and generate-intro) every user-supplied text interpolated into a
drawtext argument is the output of `sanitizeDrawText` — in particular no raw
quote or backslash can reach those subprocess arguments; the public merge
handler, by contrast, interpolates the respondent name and title
unsanitized. -/
theorem authenticated_drawtext_sanitized (n p q : String) :
    mergeIntroNameArg n = sanitizeDrawTextS n
    ∧ mergeIntroPositionArg p = sanitizeDrawTextS p
    ∧ mergeTitleCardArg q = sanitizeDrawTextS q
    ∧ generateIntroTitleArg q = sanitizeDrawTextS q
    ∧ (∀ c ∈ (mergeIntroNameArg n).data,
        c ≠ '\x27' ∧ c ≠ '\x22' ∧ c ≠ '\x5c')
    ∧ (∀ c ∈ (mergeIntroPositionArg p).data,
        c ≠ '\x27' ∧ c ≠ '\x22' ∧ c ≠ '\x5c')
    ∧ (∀ c ∈ (mergeTitleCardArg q).data,
        c ≠ '\x27' ∧ c ≠ '\x22' ∧ c ≠ '\x5c')
    ∧ publicIntroNameArg n = n := by
  refine ⟨rfl, rfl, rfl, rfl, ?_, ?_, ?_, rfl⟩ <;> intro c hc
  · have hc' : c ∈ sanitizeDrawText n.data := hc
    exact ⟨fun he => sanitize_no_squote n.data (he ▸ hc'),
      fun he => sanitize_no_dquote n.data (he ▸ hc'),
      fun he => sanitize_no_backslash n.data (he ▸ hc')⟩
  · have hc' : c ∈ sanitizeDrawText p.data := hc
    exact ⟨fun he => sanitize_no_squote p.data (he ▸ hc'),
      fun he => sanitize_no_dquote p.data (he ▸ hc'),
      fun he => sanitize_no_backslash p.data (he ▸ hc')⟩
  · have hc' : c ∈ sanitizeDrawText q.data := hc
    exact ⟨fun he => sanitize_no_squote q.data (he ▸ hc'),
      fun he => sanitize_no_dquote q.data (he ▸ hc'),
      fun he => sanitize_no_backslash q.data (he ▸ hc')⟩

/-- Witness for C3 (amended) at concrete user inputs. -/
theorem authenticated_drawtext_sanitized_witness :
    mergeIntroNameArg "Jane Doe" = sanitizeDrawTextS "Jane Doe"
    ∧ mergeIntroPositionArg "CTO" = sanitizeDrawTextS "CTO"
    ∧ mergeTitleCardArg "Would you recommend us" =
        sanitizeDrawTextS "Would you recommend us"
    ∧ generateIntroTitleArg "Would you recommend us" =
        sanitizeDrawTextS "Would you recommend us"
    ∧ (∀ c ∈ (mergeIntroNameArg "Jane Doe").data,
        c ≠ '\x27' ∧ c ≠ '\x22' ∧ c ≠ '\x5c')
    ∧ (∀ c ∈ (mergeIntroPositionArg "CTO").data,
        c ≠ '\x27' ∧ c ≠ '\x22' ∧ c ≠ '\x5c')
    ∧ (∀ c ∈ (mergeTitleCardArg "Would you recommend us").data,
        c ≠ '\x27' ∧ c ≠ '\x22' ∧ c ≠ '\x5c')
    ∧ publicIntroNameArg "Jane Doe" = "Jane Doe" :=
  authenticated_drawtext_sanitized "Jane Doe" "CTO" "Would you recommend us"

/-- **C6 (counterexample).** Transient files survive runs: when response 2's
conversion fails, the run still succeeds but its downloaded raw clip remains
on disk afterwards (it is on no cleanup list); and when the upload fails,
the handler returns at once with every transient file still on disk. -/
theorem mergeRun_leaves_transient_files :
    ((mergeRun envConvFail recPending).outcome =
        MergeOutcome.ok (mergedVideoUrl envConvFail) 1
      ∧ (mergeRun envConvFail recPending).files = [TFile.raw 2])
    ∧ ((mergeRun envNoUpload recPending).outcome = MergeOutcome.err 500
      ∧ (mergeRun envNoUpload recPending).files ≠ []) := by
  decide

/-- **C6 (amended).** Only after a fully successful run — every fetched
response also converted, and the intro/card/concat/upload stages all
succeeded — does the success-path cleanup remove every transient file; runs
that fail any stage, or that skip a response whose conversion failed, leave
files behind. -/
theorem mergeRun_cleanup_on_success (env : Env) (rec0 : TestimonialRecord)
    (hne : env.responses ≠ [])
    (hall : ∀ r ∈ env.responses, truthy r.video_url = true ∧
      env.fetchOk r.id = true ∧ env.convertOk r.id = true)
    (hintro : env.introOk = true)
    (hcards : ∀ r ∈ env.responses, env.cardOk r.question_id = true)
    (hconcat : env.concatOk = true)
    (hupload : env.uploadOk = true) :
    (mergeRun env rec0).files = [] := by
  have hdl := downloadLoop_all_ok env env.responses hall
  have hrw := mergeRun_reaches_upload env rec0
    (by rw [hdl]; exact hne) hintro (by rw [hdl]; exact hcards) hconcat
  rw [hrw, hdl]
  unfold stageUpload
  rw [hupload]
  simp only [Bool.true_eq_false, if_false]
  apply removeFiles_eq_nil
  intro x hx
  have hfc : (TFile.intro :: env.responses.flatMap
      (fun v => [TFile.card v.question_id, TFile.clip v.id])).filter isCard =
      env.responses.map (fun v => TFile.card v.question_id) := by
    rw [List.filter_cons]
    simp only [isCard]
    rw [filter_isCard_pairs]
    rfl
  simp only [hfc, filter_isCard_pairs, List.mem_append, List.mem_map,
    List.mem_cons, List.mem_singleton, List.not_mem_nil, or_false] at hx ⊢
  aesop

/-- Witness for C6 (amended): a fully successful two-response run ends with
an empty working directory. -/
theorem mergeRun_cleanup_on_success_witness :
    (mergeRun envAllOk recPending).files = [] :=
  mergeRun_cleanup_on_success envAllOk recPending (by decide) (by decide)
    rfl (by decide) rfl rfl

/-- **C7.** A subprocess failure while generating the intro card or any title
card is fatal to the whole composition: the run answers 500, uploads
nothing, and no concat manifest is ever written — so no response can be
included without its preceding title card, and card failures are never
turned into per-response skips. -/
theorem mergeRun_card_failure_fatal (env : Env) (rec0 : TestimonialRecord)
    (hne : (downloadLoop env env.responses).downloadedVideos ≠ [])
    (hfail : env.introOk = false ∨
      ∃ v ∈ (downloadLoop env env.responses).downloadedVideos,
        env.cardOk v.question_id = false) :
    (mergeRun env rec0).outcome = MergeOutcome.err 500
    ∧ (mergeRun env rec0).uploadedKeys = []
    ∧ (mergeRun env rec0).manifest = [] := by
  have hres : env.responses.isEmpty = false := by
    apply isEmpty_false_of_ne
    intro h
    apply hne
    rw [h]
    rfl
  have hv : (downloadLoop env env.responses).downloadedVideos.isEmpty = false :=
    isEmpty_false_of_ne hne
  rcases hfail with hi | hfail
  · unfold mergeRun
    rw [hres, hv, hi]
    simp only [Bool.false_eq_true, if_false, if_true]
    exact ⟨trivial, trivial, trivial⟩
  · cases hi : env.introOk
    · unfold mergeRun
      rw [hres, hv, hi]
      simp only [Bool.false_eq_true, if_false, if_true]
      exact ⟨trivial, trivial, trivial⟩
    · obtain ⟨made, hm⟩ := mergeRun_card_failure env rec0 hne hi hfail
      rw [hm]
      exact ⟨rfl, rfl, rfl⟩

/-- Witness for C7 at an environment where question 20's title card fails. -/
theorem mergeRun_card_failure_fatal_witness :
    (mergeRun envCardFail recPending).outcome = MergeOutcome.err 500
    ∧ (mergeRun envCardFail recPending).uploadedKeys = []
    ∧ (mergeRun envCardFail recPending).manifest = [] :=
  mergeRun_card_failure_fatal envCardFail recPending (by decide)
    (Or.inr (by decide))

/-- **C8 (counterexample).** In a fully successful run starting from a
`pending` testimonial, publishing succeeds and the record receives the new
public URL, yet no completion marker is set: the status column is left
untouched, contradicting the claim that success updates the record with "a
completion marker". -/
theorem mergeRun_no_completion_marker :
    (mergeRun envAllOk recPending).outcome =
      MergeOutcome.ok (mergedVideoUrl envAllOk) 2
    ∧ (mergeRun envAllOk recPending).record.video_url =
        some (mergedVideoUrl envAllOk)
    ∧ (mergeRun envAllOk recPending).record.status = "pending"
    ∧ completionMarkerSet (mergeRun envAllOk recPending).record = false := by
  decide

/-- **C8 (amended).** When publishing the merged artifact fails, the
testimonial record is left untouched and the whole operation is reported
failed; when publishing and the write-back succeed, the record receives the
new public URL and a fresh `updated_at`, but no completion marker — its
status column is unchanged. -/
theorem mergeRun_publish_record (env : Env) (rec0 : TestimonialRecord)
    (hne : (downloadLoop env env.responses).downloadedVideos ≠ [])
    (hintro : env.introOk = true)
    (hcards : ∀ v ∈ (downloadLoop env env.responses).downloadedVideos,
      env.cardOk v.question_id = true)
    (hconcat : env.concatOk = true) :
    (env.uploadOk = false →
      (mergeRun env rec0).record = rec0
      ∧ (mergeRun env rec0).outcome = MergeOutcome.err 500
      ∧ (mergeRun env rec0).uploadedKeys = [])
    ∧ (env.uploadOk = true → env.updateOk = true →
      (mergeRun env rec0).record =
        ⟨some (mergedVideoUrl env), rec0.status, env.now⟩
      ∧ (mergeRun env rec0).record.status = rec0.status) := by
  rw [mergeRun_reaches_upload env rec0 hne hintro hcards hconcat]
  constructor
  · intro hu
    unfold stageUpload
    rw [hu, if_pos rfl]
    exact ⟨rfl, rfl, rfl⟩
  · intro hu hup
    unfold stageUpload
    rw [hu, hup]
    simp only [Bool.true_eq_false, if_false, if_true]
    constructor <;> trivial

/-- Witness for C8 (amended) at an environment whose upload fails: the
pending record is untouched and the run reports failure. -/
theorem mergeRun_publish_record_witness :
    (mergeRun envNoUpload recPending).record = recPending
    ∧ (mergeRun envNoUpload recPending).outcome = MergeOutcome.err 500
    ∧ (mergeRun envNoUpload recPending).uploadedKeys = [] :=
  (mergeRun_publish_record envNoUpload recPending (by decide) rfl
    (by decide) rfl).1 rfl

/-- **C9 (counterexample).** The authenticated merge handler's per-clip
conversion command pins no frame rate at all (neither an `-r 30` flag nor an
`fps=30` filter occurs in it), and the public merge handler's conversion
command scales directly to `1280:720` with no `pad` filter — it stretches
rather than letterboxing — so the claimed fixed semantics (frame rate 30,
aspect-ratio-preserving padding) do not hold of either normalization
command. -/
theorem normalize_commands_not_spec_semantics :
    pinsFrameRate30 (ffmpegCommandConvert "video.webm" "video.mp4") = false
    ∧ containsSub "pad".data
        (publicFfmpegCommandConvert "video.webm" "video.mp4").data = false
    ∧ containsSub "scale=1280:720,".data
        (publicFfmpegCommandConvert "video.webm" "video.mp4").data = true := by
  decide

/-- **C9 (amended).** Each per-clip normalization invokes ffmpeg once with
pinned video (`libx264`) and audio (`aac`) codecs; the authenticated merge
handler's command preserves aspect ratio with a conditional scale plus a
centred pad to a fixed 1280x720 frame but pins no frame rate, while the
public merge handler's command pins `fps=30` but scales directly to
1280x720 without padding. -/
theorem normalize_commands_actual_semantics :
    containsSub "-c:v libx264".data
      (ffmpegCommandConvert "video.webm" "video.mp4").data = true
    ∧ containsSub "-c:a aac".data
        (ffmpegCommandConvert "video.webm" "video.mp4").data = true
    ∧ containsSub
        "scale=\x27if(gt(a,16/9),1280,-2)\x27:\x27if(gt(a,16/9),-2,720)\x27,pad=1280:720:(ow-iw)/2:(oh-ih)/2".data
        (ffmpegCommandConvert "video.webm" "video.mp4").data = true
    ∧ pinsFrameRate30 (ffmpegCommandConvert "video.webm" "video.mp4") = false
    ∧ containsSub "-c:v libx264".data
        (publicFfmpegCommandConvert "video.webm" "video.mp4").data = true
    ∧ containsSub "-c:a aac".data
        (publicFfmpegCommandConvert "video.webm" "video.mp4").data = true
    ∧ pinsFrameRate30 (publicFfmpegCommandConvert "video.webm" "video.mp4") = true
    ∧ containsSub "pad".data
        (publicFfmpegCommandConvert "video.webm" "video.mp4").data = false := by
  decide

/-- **C10.** Both composition endpoints report success and return the
published public URL even when the final persistence write-back fails (the
update error is only logged): the merge run answers 200 with the URL while
the testimonial record is unchanged, and the generate-intro run answers 200
with the URL while the response record is unchanged. -/
theorem writeback_failure_still_reports_success
    (env : Env) (rec0 : TestimonialRecord)
    (ienv : IntroEnv) (irec0 : ResponseRecord)
    (hne : (downloadLoop env env.responses).downloadedVideos ≠ [])
    (hintro : env.introOk = true)
    (hcards : ∀ v ∈ (downloadLoop env env.responses).downloadedVideos,
      env.cardOk v.question_id = true)
    (hconcat : env.concatOk = true)
    (hupload : env.uploadOk = true)
    (hupdate : env.updateOk = false)
    (g1 : truthy ienv.video_url = true)
    (g2 : truthy ienv.question_text = true)
    (g3 : ienv.fetchOk = true) (g4 : ienv.convertOk = true)
    (g5 : ienv.cardOk = true) (g6 : ienv.concatOk = true)
    (g7 : ienv.uploadOk = true) (g8 : ienv.updateOk = false) :
    ((mergeRun env rec0).outcome = MergeOutcome.ok (mergedVideoUrl env)
        (downloadLoop env env.responses).downloadedVideos.length
      ∧ (mergeRun env rec0).record = rec0)
    ∧ ((generateIntroRun ienv irec0).outcome =
        IntroOutcome.ok (publicUrlOf ("responses_with_intro/" ++ introFileName ienv))
      ∧ (generateIntroRun ienv irec0).record = irec0) := by
  constructor
  · rw [mergeRun_reaches_upload env rec0 hne hintro hcards hconcat]
    unfold stageUpload
    rw [hupload, hupdate]
    simp only [Bool.true_eq_false, Bool.false_eq_true, if_false]
    constructor <;> trivial
  · unfold generateIntroRun
    rw [g1, g2, g3, g4, g5, g6, g7, g8]
    simp only [Bool.true_eq_false, Bool.false_eq_true, if_false]
    constructor <;> trivial

/-- Witness for C10: concrete environments in which everything succeeds
except the final database write-back. -/
theorem writeback_failure_still_reports_success_witness :
    ((mergeRun envNoUpdate recPending).outcome =
        MergeOutcome.ok (mergedVideoUrl envNoUpdate)
          (downloadLoop envNoUpdate envNoUpdate.responses).downloadedVideos.length
      ∧ (mergeRun envNoUpdate recPending).record = recPending)
    ∧ ((generateIntroRun ienvNoUpdate irecNone).outcome =
        IntroOutcome.ok (publicUrlOf
          ("responses_with_intro/" ++ introFileName ienvNoUpdate))
      ∧ (generateIntroRun ienvNoUpdate irecNone).record = irecNone) :=
  writeback_failure_still_reports_success envNoUpdate recPending
    ienvNoUpdate irecNone (by decide) rfl (by decide) rfl rfl rfl
    (by decide) (by decide) rfl rfl rfl rfl rfl rfl

end Testivid
